import Mathlib

/-
  Shallow embedding of kerastuner/engine/tuner.py (class Tuner).

  The embedding covers the parts of the Tuner class that the verified
  properties talk about: the instance-generation loop `new_instance`
  (lines 233-312), result recording `record_results` (lines 314-344),
  `get_best_model` (lines 346-348), the statistics initialisation in
  `__init__` (lines 96-108), and the instance-bookkeeping fields
  (lines 64-66).

  Modelling choices:
  - Machine state is the record `TState` holding the Tuner attributes the
    loop reads or writes.  Display/telemetry calls (warning, info, section,
    setting, print_table), the TF-graph clearing, the cloud service and the
    meta_data mirror writes are side effects on external collaborators and
    are elided; they do not affect any field of `TState` read by the code.
  - The external model factory `model_fn` is stateful in Python (each call
    may build a different model, raise, or return None).  It is modelled as
    a function from the attempt number (0-based, counted across one
    `new_instance` call) to a `FactoryResult`.
  - `__compute_model_id` hashes str(model.get_config()); the hash is
    deterministic and treated as injective on configurations, so a `Model`
    carries its identity string `cfgId` directly, and the id function
    returns it.
  - Python dict keys can mix types: `current_instance_idx` starts as the
    int -1 and later holds a 32-hex-char string id.  `PyKey` is the sum of
    both shapes, matching Python equality (an int key never equals a str
    key).
  - The `while 1` loop is embedded with explicit fuel: `none` means the
    loop is still running after `fuel` iterations (divergence at every
    finite depth), `some r` means the Python call returned `r`.
  - Metric values are Python floats; only their linear order matters to the
    code (min/max comparisons), so they are embedded as `Int`, which is
    order-faithful and keeps every definition decidable.
  - Python exceptions that escape a modelled method (KeyError from a dict
    lookup, TypeError from a duplicate keyword argument) are `Except`
    errors.
-/

namespace KerasTuner

/-- Python's sys.maxsize on a 64-bit platform, used as the initial best
value for minimised metrics (tuner.py line 72 and 105). -/
def sysMaxsize : Int := 2 ^ 63 - 1

/-- Direction of a key metric, the second component of a
(metric_name, direction) tuple: 'min' or 'max'. -/
inductive Direction where
  | dirMin
  | dirMax
deriving DecidableEq

/-- A Keras model as far as the tuner observes it: its structural
configuration (represented by the identity string that
`__compute_model_id` derives from `str(model.get_config())`) and its
parameter count (what `instance.compute_model_size()` returns). -/
structure Model where
  cfgId : String
  numParams : Nat
deriving DecidableEq

/-- tuner.py lines 434-437, `__compute_model_id`: the sha256 of the
serialized model config truncated to 32 hex chars.  The hash is
deterministic and collision-free at this scale, so the model's identity
string is returned directly. -/
def compute_model_id (m : Model) : String := m.cfgId

/-- tuner.py lines 283-285: an Instance wraps the model id and the model.
The training-configuration arguments (gpu count, batch size, callbacks,
checkpointing, backend, display settings) are external collaborators the
generation loop never reads back; they are elided. -/
structure Instance where
  idx : String
  model : Model
deriving DecidableEq

/-- tuner.py line 286: `instance.compute_model_size()`, the parameter
count of the wrapped model. -/
def Instance.compute_model_size (i : Instance) : Nat := i.model.numParams

/-- A Python dict key as used by `self.instances`: either an int (the
sentinel -1 from line 66) or a model-id string.  Python equality never
identifies an int with a str. -/
inductive PyKey where
  | intKey (n : Int)
  | strKey (s : String)
deriving DecidableEq

/-- Outcome of one call to the user-supplied model factory `model_fn`:
it may raise, return None, or return a model (tuner.py lines 244-263). -/
inductive FactoryResult where
  | raises
  | noModel
  | model (m : Model)

/-- Python exceptions that escape the modelled methods. -/
inductive PyError where
  | keyError
  | typeError
deriving DecidableEq

/-- The Tuner attributes read or written by the modelled methods.
`instances` is the insertion-ordered dict of line 65; `previous_instances`
is the set of model ids loaded by `_load_previously_trained_instances`
(only membership is read, line 267); the five counters are the run-wide
TunerState counters; `stats_best` / `stats_latest` are
`self.stats['best']` and `self.stats['latest']` (insertion-ordered dicts
from metric name to value). -/
@[ext]
structure TState where
  max_fail_streak : Nat
  max_params : Nat
  key_metrics : List (String × Direction)
  instances : List (PyKey × Instance)
  current_instance_idx : PyKey
  previous_instances : List String
  num_generated_models : Nat
  num_invalid_models : Nat
  num_collisions : Nat
  num_over_sized_models : Nat
  num_mdl_previously_trained : Nat
  stats_best : List (String × Int)
  stats_latest : List (String × Int)
deriving DecidableEq

/-- tuner.py line 64: `self.max_fail_streak = 5`. -/
def max_fail_streak_default : Nat := 5

/-- tuner.py line 66: `self.current_instance_idx = -1`. -/
def initial_current_instance_idx : PyKey := .intKey (-1)

/-- tuner.py lines 101-107: initial `self.stats['best']` — sys.maxsize
for each 'min' metric, -1 for each 'max' metric, in key-metric order. -/
def init_stats_best (kms : List (String × Direction)) : List (String × Int) :=
  kms.map fun km => (km.1, if km.2 = .dirMin then sysMaxsize else (-1 : Int))

/-- tuner.py lines 239-296: the body of `new_instance`'s `while 1` loop,
with explicit fuel.  Arguments after the fuel: the attempt number fed to
the factory, the state, and the three local streak variables
`fail_streak`, `collision_streak`, `over_sized_streak` (lines 235-237).
Returns `none` when the fuel runs out mid-loop, otherwise
`some (r, s')` where `r` is the Python return value (None or the
registered Instance, registration of lines 298-299 included) and `s'` the
final state. -/
def newInstanceLoop (model_fn : Nat → FactoryResult) :
    Nat → Nat → TState → Nat → Nat → Nat → Option (Option Instance × TState)
  | 0, _, _, _, _, _ => none
  | fuel + 1, attempt, s, fail_streak, collision_streak, over_sized_streak =>
    -- line 242: self.num_generated_models += 1 ; line 243: fail_streak += 1
    let s := { s with num_generated_models := s.num_generated_models + 1 }
    let fail_streak := fail_streak + 1
    match model_fn attempt with
    | .raises =>
      -- lines 246-258: except branch
      let s := { s with num_invalid_models := s.num_invalid_models + 1 }
      if s.num_invalid_models ≥ s.max_fail_streak then
        some (none, s)
      else
        newInstanceLoop model_fn fuel (attempt + 1) s
          fail_streak collision_streak over_sized_streak
    | .noModel =>
      -- lines 260-263: if not model: return None
      some (none, s)
    | .model m =>
      let idx := compute_model_id m
      if idx ∈ s.previous_instances then
        -- lines 267-270: previously trained, skip
        let s := { s with
          num_mdl_previously_trained := s.num_mdl_previously_trained + 1 }
        newInstanceLoop model_fn fuel (attempt + 1) s
          fail_streak collision_streak over_sized_streak
      else if (s.instances.lookup (.strKey idx)).isSome then
        -- lines 272-279: collision
        let collision_streak := collision_streak + 1
        let s := { s with num_collisions := s.num_collisions + 1 }
        if collision_streak ≥ s.max_fail_streak then
          some (none, s)
        else
          newInstanceLoop model_fn fuel (attempt + 1) s
            fail_streak collision_streak over_sized_streak
      else
        -- lines 280-296: build the Instance, size check, break
        let inst : Instance := ⟨idx, m⟩
        let num_params := inst.compute_model_size
        if num_params > s.max_params then
          let over_sized_streak := over_sized_streak + 1
          let s := { s with
            num_over_sized_models := s.num_over_sized_models + 1 }
          if over_sized_streak ≥ s.max_fail_streak then
            some (none, s)
          else
            newInstanceLoop model_fn fuel (attempt + 1) s
              fail_streak collision_streak over_sized_streak
        else
          -- lines 296-312: break; register; return self.instances[idx]
          let s := { s with
            instances := s.instances ++ [(.strKey idx, inst)],
            current_instance_idx := .strKey idx }
          some (some inst, s)

/-- tuner.py lines 233-312: `new_instance` enters the loop with the three
streak locals at 0. -/
def new_instance (model_fn : Nat → FactoryResult) (fuel : Nat)
    (s : TState) : Option (Option Instance × TState) :=
  newInstanceLoop model_fn fuel 0 s 0 0 0

/-- Python truthiness of the `idx` argument of `record_results`
(default None; an empty string is also falsy). -/
def pyFalsy : Option String → Bool
  | none => true
  | some str => str == ""

/-- tuner.py lines 330-339: the per-key-metric pass of `record_results`,
building the fresh `latest_results` and `best_results` dicts from scratch.
`stats_best` is the current `self.stats['best']`; `results` is
`results['key_metrics']`.  Reading `self.stats['best'][metric_name]`
raises KeyError when the metric has no best entry.  Returns
(latest_results, best_results). -/
def computeStats (stats_best results : List (String × Int)) :
    List (String × Direction) → Except PyError (List (String × Int) × List (String × Int))
  | [] => .ok ([], [])
  | km :: rest =>
    match results.lookup km.1 with
    | none => computeStats stats_best results rest
    | some res_val =>
      match stats_best.lookup km.1 with
      | none => .error .keyError
      | some current_best => do
        let (latest, best) ← computeStats stats_best results rest
        let b : Int := match km.2 with
          | .dirMin => min current_best res_val
          | .dirMax => max current_best res_val
        .ok ((km.1, res_val) :: latest, (km.1, b) :: best)

/-- tuner.py lines 314-344: `record_results`.  `results_of` stands for
the external `instance.record_results()['key_metrics']` mapping.  When
`idx` is falsy the lookup key is `self.current_instance_idx`; a missing
dict key raises KeyError, leaving the statistics untouched.  On success
`self.stats['best']` and `self.stats['latest']` are replaced wholesale by
the freshly built dicts. -/
def record_results (results_of : Instance → List (String × Int))
    (idx : Option String) (s : TState) : Except PyError TState := do
  let key : PyKey :=
    if pyFalsy idx then s.current_instance_idx else .strKey (idx.getD "")
  match s.instances.lookup key with
  | none => .error .keyError
  | some inst =>
    let results := results_of inst
    let (latest_results, best_results) ←
      computeStats s.stats_best results s.key_metrics
    .ok { s with stats_best := best_results, stats_latest := latest_results }

/-- tuner.py lines 346-348: `get_best_model(self, **kwargs)` whose body
is `self.get_best_model(num_models=1, **kwargs)`.  The only part of
`kwargs` the recursion observes is whether `num_models` is already bound,
modelled by the Bool argument.  A frame whose kwargs already bind
`num_models` raises TypeError at its own recursive call site (Python
rejects `f(num_models=1, **kwargs)` when kwargs contains `num_models`);
a frame without it re-enters with `num_models` bound.  Fuel counts frame
entries; `none` means still recursing. -/
def get_best_model : Nat → Bool → Option (Except PyError Unit)
  | 0, _ => none
  | _ + 1, true => some (.error .typeError)
  | fuel + 1, false => get_best_model fuel true

/-! Concrete fixtures: model factories and tuner states used to
instantiate the theorems below on closed inputs.  Counter fields start at
0 as at tuner construction; `max_fail_streak` is the source default 5. -/

/-- A factory that raises on every call. -/
def alwaysRaises : Nat → FactoryResult := fun _ => .raises

/-- A factory that returns None on every call. -/
def alwaysNoModel : Nat → FactoryResult := fun _ => .noModel

/-- A factory that returns the same model on every call. -/
def alwaysModel (m : Model) : Nat → FactoryResult := fun _ => .model m

/-- A factory returning `mPrev` on the first `k` attempts and `mNew`
afterwards. -/
def skipThenFresh (k : Nat) (mPrev mNew : Model) : Nat → FactoryResult :=
  fun n => if n < k then .model mPrev else .model mNew

/-- A results mapping that records the same key metrics for every
instance. -/
def constResults (l : List (String × Int)) : Instance → List (String × Int) :=
  fun _ => l

/-- An instance results mapping with no key metrics at all. -/
def emptyResults : Instance → List (String × Int) := fun _ => []

/-- Default key metrics restricted to the two used in the fixtures. -/
def baseMetrics : List (String × Direction) :=
  [("loss", .dirMin), ("acc", .dirMax)]

/-- A 50-parameter model with identity string "aa". -/
def modelAA : Model := ⟨"aa", 50⟩

/-- A 1000-parameter model, used for the oversize fixtures. -/
def modelBig : Model := ⟨"big", 1000⟩

/-- A model whose identity is listed in the previous-instance index of
the skip fixtures. -/
def modelPrev : Model := ⟨"prev", 50⟩

/-- A fresh model for the skip-then-succeed fixtures. -/
def modelNew : Model := ⟨"new", 50⟩

/-- A freshly constructed tuner state: empty instance mapping, sentinel
current index, zero counters, initial statistics. -/
def baseState : TState :=
  { max_fail_streak := max_fail_streak_default
    max_params := 10000
    key_metrics := baseMetrics
    instances := []
    current_instance_idx := initial_current_instance_idx
    previous_instances := []
    num_generated_models := 0
    num_invalid_models := 0
    num_collisions := 0
    num_over_sized_models := 0
    num_mdl_previously_trained := 0
    stats_best := init_stats_best baseMetrics
    stats_latest := [] }

/-- The registered instance wrapping `modelAA`. -/
def instAA : Instance := ⟨"aa", modelAA⟩

/-- A state in which `instAA` has been registered and is the current
instance (as after one successful `new_instance` call). -/
def stateWithAA : TState :=
  { baseState with
    instances := [(.strKey "aa", instAA)]
    current_instance_idx := .strKey "aa"
    num_generated_models := 1 }

/-! ### C1 — model factory returning None -/

/-- Claim C1, counterexample: with a factory that returns None on its very
first call, `new_instance` on a fresh state returns null after exactly one
attempt, with the invalid/collision/oversized counters all still 0 and
`max_fail_streak = 5`, so the null result surfaces immediately on the
first None occurrence, not through any streak budget reaching
`max_fail_streak`. -/
theorem C1_counterexample :
    (new_instance alwaysNoModel 10 baseState).map
      (fun r => (r.1, r.2.num_invalid_models, r.2.num_collisions,
                 r.2.num_over_sized_models, r.2.num_generated_models)) =
      some (none, 0, 0, 0, 1) ∧ baseState.max_fail_streak = 5 := by
  constructor
  · rfl
  · rfl

/-- Claim C1, amended: if the factory returns no model on the first
attempt, `new_instance` immediately returns null on that first occurrence,
bypassing the streak policy entirely: the only state change is the
per-attempt `num_generated_models` increment, and in particular
`num_invalid_models` is not incremented. -/
theorem C1_noModel_immediate_null (model_fn : Nat → FactoryResult)
    (s : TState) (fuel : Nat) (h : model_fn 0 = .noModel) :
    new_instance model_fn (fuel + 1) s =
      some (none, { s with num_generated_models := s.num_generated_models + 1 }) := by
  simp [new_instance, newInstanceLoop, h]

/-- Witness for `C1_noModel_immediate_null` at the fresh state. -/
theorem C1_noModel_immediate_null_witness :
    alwaysNoModel 0 = .noModel ∧
    new_instance alwaysNoModel (9 + 1) baseState =
      some (none, { baseState with num_generated_models := baseState.num_generated_models + 1 }) :=
  ⟨rfl, C1_noModel_immediate_null alwaysNoModel baseState 9 rfl⟩

/-! ### C9 — get_best_model self-recursion -/

/-- Claim C9, counterexample: a no-argument `get_best_model` call does
terminate: within two frame entries it raises TypeError (the nested
invocation passes `num_models=1` alongside kwargs already containing
`num_models`), so the result at fuel 2 is an exception, not divergence. -/
theorem C9_counterexample :
    get_best_model 2 false = some (.error .typeError) ∧
    get_best_model 2 false ≠ none := by
  constructor
  · rfl
  · simp [get_best_model]

/-- Claim C9, amended: a no-argument `get_best_model` call re-invokes
itself with `num_models=1` before any other work, and the nested frame's
own recursive call raises a duplicate-keyword TypeError, so for every fuel
bound of at least two frames the call terminates exceptionally with
TypeError and never returns a model. -/
theorem C9_get_best_model_raises (fuel : Nat) (h : 2 ≤ fuel) :
    get_best_model fuel false = some (.error .typeError) := by
  match fuel, h with
  | n + 2, _ => simp [get_best_model]

/-- Witness for `C9_get_best_model_raises` at fuel 2. -/
theorem C9_get_best_model_raises_witness :
    2 ≤ 2 ∧ get_best_model 2 false = some (.error .typeError) :=
  ⟨by decide, C9_get_best_model_raises 2 (by decide)⟩

/-! ### C10 — record_results before any registered instance -/

/-- Claim C10, confirmed: on a state where no instance has been
registered (`instances` empty, `current_instance_idx` still the sentinel
-1), `record_results` with a falsy `idx` looks the sentinel up in the
empty mapping and fails with KeyError, recording nothing. -/
theorem C10_record_results_initial_keyerror
    (results_of : Instance → List (String × Int)) (idx : Option String)
    (s : TState) (h1 : s.instances = [])
    (h2 : s.current_instance_idx = initial_current_instance_idx)
    (h3 : pyFalsy idx = true) :
    record_results results_of idx s = .error .keyError := by
  simp [record_results, h1, h2, h3, List.lookup]

/-- Witness for `C10_record_results_initial_keyerror` at the fresh
state. -/
theorem C10_record_results_initial_keyerror_witness :
    baseState.instances = [] ∧
    baseState.current_instance_idx = initial_current_instance_idx ∧
    pyFalsy none = true ∧
    record_results emptyResults none baseState = .error .keyError :=
  ⟨rfl, rfl, rfl,
    C10_record_results_initial_keyerror emptyResults none baseState rfl rfl rfl⟩

/-! ### C2 — metrics absent from results -/

/-- A state with prior best and latest values for "loss", used to show
that a results mapping missing "loss" discards them. -/
def stateLossRecorded : TState :=
  { stateWithAA with
    stats_best := [("loss", 10), ("acc", -1)]
    stats_latest := [("loss", 3)] }

/-- The state produced by recording results `[("acc", 7)]` on
`stateLossRecorded`: both statistics dicts are rebuilt from the present
metrics only. -/
def stateLossDropped : TState :=
  { stateLossRecorded with
    stats_best := [("acc", 7)]
    stats_latest := [("acc", 7)] }

/-- Claim C2, counterexample: on a state whose statistics hold
best("loss") = 10 and latest("loss") = 3, recording results that contain
only "acc" leaves the new statistics with no "loss" entry at all — the
prior best and latest values for the absent metric are discarded, not
retained. -/
theorem C2_counterexample :
    stateLossRecorded.stats_best.lookup "loss" = some 10 ∧
    stateLossRecorded.stats_latest.lookup "loss" = some 3 ∧
    (record_results (constResults [("acc", 7)]) none stateLossRecorded).map
      (fun t => (t.stats_best.lookup "loss", t.stats_latest.lookup "loss")) =
      .ok (none, none) := by
  refine ⟨rfl, rfl, rfl⟩

/-- Every metric name absent from the recorded results is absent from
both dicts built by the statistics pass. -/
theorem computeStats_absent (stats_best results : List (String × Int))
    (kms : List (String × Direction)) (latest best : List (String × Int))
    (hok : computeStats stats_best results kms = .ok (latest, best))
    (name : String) (habs : results.lookup name = none) :
    latest.lookup name = none ∧ best.lookup name = none := by
  induction kms generalizing latest best with
  | nil =>
    simp [computeStats] at hok
    simp [hok.1, hok.2, List.lookup]
  | cons km rest ih =>
    rw [computeStats] at hok
    cases hres : results.lookup km.1 with
    | none =>
      rw [hres] at hok
      exact ih latest best hok
    | some res_val =>
      cases hbest : stats_best.lookup km.1 with
      | none =>
        rw [hres, hbest] at hok
        simp at hok
      | some current_best =>
        cases hrest : computeStats stats_best results rest with
        | error e =>
          rw [hres, hbest, hrest] at hok
          simp [Bind.bind, Except.bind] at hok
        | ok p =>
          obtain ⟨l_tl, b_tl⟩ := p
          rw [hres, hbest, hrest] at hok
          have hne : name ≠ km.1 := by
            intro he
            rw [he, hres] at habs
            exact Option.noConfusion habs
          have hih := ih l_tl b_tl hrest
          simp only [Bind.bind, Except.bind, Except.ok.injEq, Prod.mk.injEq] at hok
          obtain ⟨hl, hb⟩ := hok
          constructor
          · rw [← hl]
            simpa [List.lookup, beq_false_of_ne hne] using hih.1
          · rw [← hb]
            simpa [List.lookup, beq_false_of_ne hne] using hih.2

/-- Claim C2, amended: `record_results` rebuilds `best` and `latest` from
scratch out of the metrics present in the recorded results: any tracked
metric absent from the results ends up with no entry in either dict — its
prior best and latest values are dropped, not retained; only metrics
present in the results appear afterwards. -/
theorem C2_absent_metric_dropped
    (results : List (String × Int)) (idx : Option String) (s s' : TState)
    (hok : record_results (constResults results) idx s = .ok s')
    (name : String) (habs : results.lookup name = none) :
    s'.stats_best.lookup name = none ∧ s'.stats_latest.lookup name = none := by
  rw [record_results] at hok
  cases hli : s.instances.lookup
      (if pyFalsy idx then s.current_instance_idx else .strKey (idx.getD "")) with
  | none =>
    rw [hli] at hok
    exact absurd hok (by intro hc; cases hc)
  | some inst =>
    rw [hli] at hok
    simp only [Bind.bind, Except.bind] at hok
    cases hcs : computeStats s.stats_best (constResults results inst) s.key_metrics with
    | error e =>
      rw [hcs] at hok
      exact absurd hok (by intro hc; cases hc)
    | ok p =>
      obtain ⟨lat, bst⟩ := p
      rw [hcs] at hok
      simp only [Except.ok.injEq] at hok
      have h2 := computeStats_absent s.stats_best (constResults results inst)
        s.key_metrics lat bst hcs name habs
      rw [← hok]
      exact ⟨h2.2, h2.1⟩

/-- Witness for `C2_absent_metric_dropped` on the concrete fixture. -/
theorem C2_absent_metric_dropped_witness :
    record_results (constResults [("acc", 7)]) none stateLossRecorded =
      .ok stateLossDropped ∧
    ([(("acc" : String), (7 : Int))]).lookup "loss" = none ∧
    stateLossDropped.stats_best.lookup "loss" = none ∧
    stateLossDropped.stats_latest.lookup "loss" = none := by
  refine ⟨rfl, rfl, ?_, ?_⟩ <;>
  · have := C2_absent_metric_dropped [("acc", 7)] none stateLossRecorded
      stateLossDropped rfl "loss" rfl
    simp [this.1, this.2]

/-! ### C4 — initial best sentinels -/

/-- A state tracking a single key metric `name` with direction `d`, with
the initial best sentinel from `__init__` and one registered current
instance, as before the first `record_results` call for that metric. -/
def firstRecordState (name : String) (d : Direction) : TState :=
  { baseState with
    key_metrics := [(name, d)]
    stats_best := init_stats_best [(name, d)]
    instances := [(.strKey "aa", instAA)]
    current_instance_idx := .strKey "aa"
    num_generated_models := 1 }

/-- Claim C4, counterexample: for a maximized metric the initial best
sentinel is -1, not a -infinity equivalent: recording a first value of -2
leaves best at -1 instead of replacing the sentinel with the observed
value, so not every possible first observation improves on the
sentinel. -/
theorem C4_counterexample :
    (firstRecordState "acc" .dirMax).stats_best.lookup "acc" = some (-1) ∧
    (record_results (constResults [("acc", -2)]) none (firstRecordState "acc" .dirMax)).map
      (fun t => t.stats_best.lookup "acc") = .ok (some (-1)) ∧
    ((-1 : Int) ≠ -2) := by
  refine ⟨rfl, rfl, by decide⟩

/-- Claim C4, amended: the initial best value is sys.maxsize (2^63 - 1)
for a minimized metric and -1 for a maximized metric.  The first recorded
value v replaces the minimize sentinel iff v ≤ sys.maxsize, and the
maximize sentinel iff v ≥ -1; -1 is therefore not a -infinity-equivalent,
and a maximized metric whose first observation is below -1 keeps the
sentinel. -/
theorem C4_sentinel_first_record (name : String) (v : Int) :
    (init_stats_best [(name, .dirMin)]).lookup name = some sysMaxsize ∧
    (init_stats_best [(name, .dirMax)]).lookup name = some (-1) ∧
    record_results (constResults [(name, v)]) none (firstRecordState name .dirMin) =
      .ok { firstRecordState name .dirMin with
            stats_best := [(name, min sysMaxsize v)]
            stats_latest := [(name, v)] } ∧
    record_results (constResults [(name, v)]) none (firstRecordState name .dirMax) =
      .ok { firstRecordState name .dirMax with
            stats_best := [(name, max (-1) v)]
            stats_latest := [(name, v)] } ∧
    (min sysMaxsize v = v ↔ v ≤ sysMaxsize) ∧
    (max (-1 : Int) v = v ↔ -1 ≤ v) := by
  refine ⟨?_, ?_, ?_, ?_, min_eq_right_iff, max_eq_right_iff⟩
  · simp [init_stats_best, List.lookup]
  · simp [init_stats_best, List.lookup]
  · simp [record_results, pyFalsy, firstRecordState, baseState, List.lookup,
      constResults, computeStats, init_stats_best, Bind.bind, Except.bind]
  · simp [record_results, pyFalsy, firstRecordState, baseState, List.lookup,
      constResults, computeStats, init_stats_best, Bind.bind, Except.bind]

/-! ### Loop lemmas and the generation-loop claims -/

/-- A fresh state whose previous-instance index contains the identity of
`modelPrev`. -/
def statePrev : TState := { baseState with previous_instances := ["prev"] }

/-- A fresh state with the parameter ceiling set to 100. -/
def stateSmallCap : TState := { baseState with max_params := 100 }

/-- With a factory that raises on every attempt, the loop keeps
incrementing the run-wide `num_invalid_models` until it reaches
`max_fail_streak` and then returns None; each attempt also increments
`num_generated_models`, so the number of attempts taken is
`max_fail_streak - num_invalid_models₀`. -/
theorem invalidExhaust (model_fn : Nat → FactoryResult)
    (hm : ∀ n, model_fn n = .raises) :
    ∀ fuel (s : TState) (attempt fs cs os : Nat),
      s.num_invalid_models < s.max_fail_streak →
      s.max_fail_streak - s.num_invalid_models ≤ fuel →
      newInstanceLoop model_fn fuel attempt s fs cs os =
        some (none,
          { s with
            num_invalid_models := s.max_fail_streak,
            num_generated_models :=
              s.num_generated_models + (s.max_fail_streak - s.num_invalid_models) }) := by
  intro fuel
  induction fuel with
  | zero =>
    intro s attempt fs cs os h1 h2
    omega
  | succ fuel ih =>
    intro s attempt fs cs os h1 h2
    rw [newInstanceLoop.eq_2, hm attempt]
    dsimp only
    by_cases hc : s.num_invalid_models + 1 ≥ s.max_fail_streak
    · rw [if_pos hc,
        show s.max_fail_streak - s.num_invalid_models = 1 from by omega,
        show s.max_fail_streak = s.num_invalid_models + 1 from by omega]
    · rw [if_neg hc,
        ih _ (attempt + 1) (fs + 1) cs os (by dsimp only; omega) (by dsimp only; omega)]
      simp only [Option.some.injEq, Prod.mk.injEq, TState.mk.injEq, eq_self_iff_true,
        true_and, and_true]
      omega

/-- With a factory whose model always collides with a registered
instance, each iteration increments the local collision streak and the
run-wide `num_collisions` until the streak reaches `max_fail_streak`,
then the loop returns None. -/
theorem collisionExhaust (model_fn : Nat → FactoryResult) (m : Model)
    (hm : ∀ n, model_fn n = .model m) :
    ∀ fuel (s : TState) (attempt fs cs os : Nat),
      compute_model_id m ∉ s.previous_instances →
      (s.instances.lookup (.strKey (compute_model_id m))).isSome = true →
      cs < s.max_fail_streak →
      s.max_fail_streak - cs ≤ fuel →
      newInstanceLoop model_fn fuel attempt s fs cs os =
        some (none,
          { s with
            num_collisions := s.num_collisions + (s.max_fail_streak - cs),
            num_generated_models := s.num_generated_models + (s.max_fail_streak - cs) }) := by
  intro fuel
  induction fuel with
  | zero =>
    intro s attempt fs cs os h1 h2 h3 h4
    omega
  | succ fuel ih =>
    intro s attempt fs cs os hprev hcoll h3 h4
    rw [newInstanceLoop.eq_2, hm attempt]
    dsimp only
    rw [if_neg hprev, if_pos hcoll]
    by_cases hc : cs + 1 ≥ s.max_fail_streak
    · rw [if_pos hc,
        show s.max_fail_streak - cs = 1 from by omega]
    · rw [if_neg hc,
        ih _ (attempt + 1) (fs + 1) (cs + 1) os (by exact hprev) (by exact hcoll)
          (by dsimp only; omega) (by dsimp only; omega)]
      simp only [Option.some.injEq, Prod.mk.injEq, TState.mk.injEq, eq_self_iff_true,
        true_and, and_true]
      omega

/-- With a factory whose model always exceeds the parameter ceiling, each
iteration increments the local oversized streak and the run-wide
`num_over_sized_models` until the streak reaches `max_fail_streak`, then
the loop returns None; the instance mapping is never touched. -/
theorem oversizedExhaust (model_fn : Nat → FactoryResult) (m : Model)
    (hm : ∀ n, model_fn n = .model m) :
    ∀ fuel (s : TState) (attempt fs cs os : Nat),
      compute_model_id m ∉ s.previous_instances →
      (s.instances.lookup (.strKey (compute_model_id m))).isSome = false →
      m.numParams > s.max_params →
      os < s.max_fail_streak →
      s.max_fail_streak - os ≤ fuel →
      newInstanceLoop model_fn fuel attempt s fs cs os =
        some (none,
          { s with
            num_over_sized_models := s.num_over_sized_models + (s.max_fail_streak - os),
            num_generated_models := s.num_generated_models + (s.max_fail_streak - os) }) := by
  intro fuel
  induction fuel with
  | zero =>
    intro s attempt fs cs os h1 h2 h3 h4 h5
    omega
  | succ fuel ih =>
    intro s attempt fs cs os hprev hcoll hsize h4 h5
    rw [newInstanceLoop.eq_2, hm attempt]
    dsimp only [Instance.compute_model_size]
    rw [if_neg hprev, if_neg (by simp [hcoll]), if_pos hsize]
    by_cases hc : os + 1 ≥ s.max_fail_streak
    · rw [if_pos hc,
        show s.max_fail_streak - os = 1 from by omega]
    · rw [if_neg hc,
        ih _ (attempt + 1) (fs + 1) cs (os + 1) (by exact hprev) (by exact hcoll)
          (by exact hsize) (by dsimp only; omega) (by dsimp only; omega)]
      simp only [Option.some.injEq, Prod.mk.injEq, TState.mk.injEq, eq_self_iff_true,
        true_and, and_true]
      omega

/-- With a factory producing `k` previously-trained models followed by a
fresh valid model, the loop silently skips the `k` duplicates
(incrementing only `num_mdl_previously_trained` besides the per-attempt
`num_generated_models`) and then registers and returns the fresh
instance, for any `k`. -/
theorem skipThenSucceed (model_fn : Nat → FactoryResult) (mNew : Model) :
    ∀ k fuel (s : TState) (attempt fs cs os : Nat),
      (∀ n, n < k → ∃ mp, model_fn (attempt + n) = .model mp ∧
         compute_model_id mp ∈ s.previous_instances) →
      model_fn (attempt + k) = .model mNew →
      compute_model_id mNew ∉ s.previous_instances →
      (s.instances.lookup (.strKey (compute_model_id mNew))).isSome = false →
      mNew.numParams ≤ s.max_params →
      k + 1 ≤ fuel →
      newInstanceLoop model_fn fuel attempt s fs cs os =
        some (some ⟨compute_model_id mNew, mNew⟩,
          { s with
            num_generated_models := s.num_generated_models + (k + 1),
            num_mdl_previously_trained := s.num_mdl_previously_trained + k,
            instances := s.instances ++
              [(.strKey (compute_model_id mNew), ⟨compute_model_id mNew, mNew⟩)],
            current_instance_idx := .strKey (compute_model_id mNew) }) := by
  intro k
  induction k with
  | zero =>
    intro fuel s attempt fs cs os hskip hnew hprev hcoll hsize hfuel
    match fuel, hfuel with
    | fuel + 1, _ =>
      rw [Nat.add_zero] at hnew
      rw [newInstanceLoop.eq_2, hnew]
      dsimp only [Instance.compute_model_size]
      rw [if_neg hprev, if_neg (by simp [hcoll]),
        if_neg (by omega : ¬ mNew.numParams > s.max_params)]
      rfl
  | succ k ih =>
    intro fuel s attempt fs cs os hskip hnew hprev hcoll hsize hfuel
    match fuel, hfuel with
    | fuel + 1, _ =>
      obtain ⟨mp, hmp, hmem⟩ := hskip 0 (by omega)
      rw [Nat.add_zero] at hmp
      rw [newInstanceLoop.eq_2, hmp]
      dsimp only
      rw [if_pos hmem]
      rw [ih fuel _ (attempt + 1) (fs + 1) cs os
        (fun n hn => by
          obtain ⟨mp2, hf, hmem2⟩ := hskip (n + 1) (by omega)
          exact ⟨mp2, by rw [show attempt + 1 + n = attempt + (n + 1) from by omega]; exact hf, hmem2⟩)
        (by rw [show attempt + 1 + k = attempt + (k + 1) from by omega]; exact hnew)
        (by exact hprev) (by exact hcoll) (by exact hsize) (by omega)]
      simp only [Option.some.injEq, Prod.mk.injEq, TState.mk.injEq, eq_self_iff_true,
        true_and, and_true]
      omega

/-! ### C3 — invalid-streak termination -/

/-- Claim C3, counterexample: from a reachable tuner state in which
`num_invalid_models` is already 3 (e.g., after three earlier failed
builds in previous calls), a `new_instance` call with an always-failing
factory returns null after only 2 attempts — not after `max_fail_streak`
(5) consecutive invalid attempts of the current call — because the gate
compares the run-wide cumulative `num_invalid_models` against
`max_fail_streak`. -/
theorem C3_counterexample :
    (new_instance alwaysRaises 10 { baseState with num_invalid_models := 3 }).map
      (fun r => (r.1, r.2.num_invalid_models, r.2.num_generated_models)) =
      some (none, 5, 2) ∧
    ({ baseState with num_invalid_models := 3 } : TState).max_fail_streak = 5 ∧
    (2 : Nat) ≠ 5 := by
  refine ⟨rfl, rfl, by decide⟩

/-- Claim C3, amended: the invalid gate compares the run-wide cumulative
`num_invalid_models` against `max_fail_streak`, not a per-call streak;
for a state whose cumulative count is 0 at entry (a fresh tuner) and an
always-failing factory, `new_instance` returns null after exactly
`max_fail_streak` invalid attempts and `num_invalid_models` then equals
`max_fail_streak`. -/
theorem C3_invalid_gate_cumulative (model_fn : Nat → FactoryResult)
    (s : TState) (fuel : Nat)
    (hm : ∀ n, model_fn n = .raises)
    (hfresh : s.num_invalid_models = 0)
    (hpos : 0 < s.max_fail_streak)
    (hfuel : s.max_fail_streak ≤ fuel) :
    new_instance model_fn fuel s =
      some (none,
        { s with
          num_invalid_models := s.max_fail_streak,
          num_generated_models := s.num_generated_models + s.max_fail_streak }) := by
  have h := invalidExhaust model_fn hm fuel s 0 0 0 0 (by omega) (by omega)
  rw [new_instance, h, hfresh]
  simp

/-- Witness for `C3_invalid_gate_cumulative` at the fresh state. -/
theorem C3_invalid_gate_cumulative_witness :
    baseState.num_invalid_models = 0 ∧
    0 < baseState.max_fail_streak ∧
    baseState.max_fail_streak ≤ 5 ∧
    new_instance alwaysRaises 5 baseState =
      some (none,
        { baseState with
          num_invalid_models := baseState.max_fail_streak,
          num_generated_models := baseState.num_generated_models + baseState.max_fail_streak }) :=
  ⟨rfl, by decide, by decide,
    C3_invalid_gate_cumulative alwaysRaises baseState 5 (fun _ => rfl) rfl
      (by decide) (by decide)⟩

/-! ### C5 — num_generated_models update -/

/-- Claim C5, counterexample: a successful `new_instance` call that was
preceded by one previously-trained skip increments
`num_generated_models` by 2, not by exactly one — the counter is
incremented at the top of every loop attempt, not on success only. -/
theorem C5_counterexample :
    (new_instance (skipThenFresh 1 modelPrev modelNew) 10 statePrev).map
      (fun r => (r.1.isSome, r.2.num_generated_models)) = some (true, 2) ∧
    statePrev.num_generated_models = 0 ∧ (2 : Nat) ≠ 0 + 1 := by
  refine ⟨rfl, rfl, by decide⟩

/-- Claim C5, amended: `num_generated_models` is incremented once per
generation attempt at the top of the loop, not on success only: a
successful `new_instance` call preceded by `k` rejected (here
previously-trained) attempts increments it by `k + 1`. -/
theorem C5_generated_counts_attempts (model_fn : Nat → FactoryResult)
    (mNew : Model) (k fuel : Nat) (s : TState)
    (hskip : ∀ n, n < k → ∃ mp, model_fn n = .model mp ∧
      compute_model_id mp ∈ s.previous_instances)
    (hnew : model_fn k = .model mNew)
    (hprev : compute_model_id mNew ∉ s.previous_instances)
    (hcoll : (s.instances.lookup (.strKey (compute_model_id mNew))).isSome = false)
    (hsize : mNew.numParams ≤ s.max_params)
    (hfuel : k + 1 ≤ fuel) :
    new_instance model_fn fuel s =
      some (some ⟨compute_model_id mNew, mNew⟩,
        { s with
          num_generated_models := s.num_generated_models + (k + 1),
          num_mdl_previously_trained := s.num_mdl_previously_trained + k,
          instances := s.instances ++
            [(.strKey (compute_model_id mNew), ⟨compute_model_id mNew, mNew⟩)],
          current_instance_idx := .strKey (compute_model_id mNew) }) := by
  exact skipThenSucceed model_fn mNew k fuel s 0 0 0 0
    (fun n hn => by simpa using hskip n hn) (by simpa using hnew)
    hprev hcoll hsize hfuel

/-- Witness for `C5_generated_counts_attempts` with three skips before
success. -/
theorem C5_generated_counts_attempts_witness :
    new_instance (skipThenFresh 3 modelPrev modelNew) 10 statePrev =
      some (some ⟨compute_model_id modelNew, modelNew⟩,
        { statePrev with
          num_generated_models := statePrev.num_generated_models + (3 + 1),
          num_mdl_previously_trained := statePrev.num_mdl_previously_trained + 3,
          instances := statePrev.instances ++
            [(.strKey (compute_model_id modelNew), ⟨compute_model_id modelNew, modelNew⟩)],
          current_instance_idx := .strKey (compute_model_id modelNew) }) :=
  C5_generated_counts_attempts (skipThenFresh 3 modelPrev modelNew) modelNew 3 10 statePrev
    (fun n hn => ⟨modelPrev, by simp [skipThenFresh, hn], by decide⟩)
    rfl (by decide) rfl (by decide) (by decide)

/-! ### C6 — collision termination -/

/-- Claim C6, confirmed: with a factory that always returns the same
structural model (of admissible size) and an empty previous-instance
index, the first `new_instance` call on an empty instance mapping
registers exactly one Instance; a subsequent call hits a collision on
every attempt, incrementing the collision streak and `num_collisions`
each time, and returns null once the streak reaches `max_fail_streak`,
having made exactly `max_fail_streak` attempts. -/
theorem C6_collision_termination (model_fn : Nat → FactoryResult) (m : Model)
    (s : TState) (fuel1 fuel2 : Nat)
    (hm : ∀ n, model_fn n = .model m)
    (hinst : s.instances = [])
    (hprev : s.previous_instances = [])
    (hsize : m.numParams ≤ s.max_params)
    (hpos : 0 < s.max_fail_streak)
    (hf1 : 1 ≤ fuel1) (hf2 : s.max_fail_streak ≤ fuel2) :
    new_instance model_fn fuel1 s =
      some (some ⟨compute_model_id m, m⟩,
        { s with
          num_generated_models := s.num_generated_models + 1,
          instances := [(.strKey (compute_model_id m), ⟨compute_model_id m, m⟩)],
          current_instance_idx := .strKey (compute_model_id m) }) ∧
    new_instance model_fn fuel2
        { s with
          num_generated_models := s.num_generated_models + 1,
          instances := [(.strKey (compute_model_id m), ⟨compute_model_id m, m⟩)],
          current_instance_idx := .strKey (compute_model_id m) } =
      some (none,
        { s with
          num_generated_models := s.num_generated_models + 1 + s.max_fail_streak,
          instances := [(.strKey (compute_model_id m), ⟨compute_model_id m, m⟩)],
          current_instance_idx := .strKey (compute_model_id m),
          num_collisions := s.num_collisions + s.max_fail_streak }) := by
  constructor
  · have h := skipThenSucceed model_fn m 0 fuel1 s 0 0 0 0
      (fun n hn => absurd hn (by omega)) (by simpa using hm 0)
      (by rw [hprev]; exact List.not_mem_nil _)
      (by rw [hinst]; rfl) hsize hf1
    rw [new_instance, h, hinst]
    simp
  · have h := collisionExhaust model_fn m hm fuel2
      { s with
        num_generated_models := s.num_generated_models + 1,
        instances := [(.strKey (compute_model_id m), ⟨compute_model_id m, m⟩)],
        current_instance_idx := .strKey (compute_model_id m) }
      0 0 0 0
      (by dsimp only; rw [hprev]; exact List.not_mem_nil _)
      (by dsimp only; simp [List.lookup])
      (by dsimp only; omega) (by dsimp only; omega)
    rw [new_instance, h]
    simp only [Option.some.injEq, Prod.mk.injEq, TState.mk.injEq, eq_self_iff_true,
      true_and, and_true]
    omega

/-- Witness for `C6_collision_termination` with `modelAA` on the fresh
state. -/
theorem C6_collision_termination_witness :
    new_instance (alwaysModel modelAA) 10 baseState =
      some (some ⟨compute_model_id modelAA, modelAA⟩,
        { baseState with
          num_generated_models := baseState.num_generated_models + 1,
          instances := [(.strKey (compute_model_id modelAA),
            ⟨compute_model_id modelAA, modelAA⟩)],
          current_instance_idx := .strKey (compute_model_id modelAA) }) ∧
    new_instance (alwaysModel modelAA) 10
        { baseState with
          num_generated_models := baseState.num_generated_models + 1,
          instances := [(.strKey (compute_model_id modelAA),
            ⟨compute_model_id modelAA, modelAA⟩)],
          current_instance_idx := .strKey (compute_model_id modelAA) } =
      some (none,
        { baseState with
          num_generated_models := baseState.num_generated_models + 1 + baseState.max_fail_streak,
          instances := [(.strKey (compute_model_id modelAA),
            ⟨compute_model_id modelAA, modelAA⟩)],
          current_instance_idx := .strKey (compute_model_id modelAA),
          num_collisions := baseState.num_collisions + baseState.max_fail_streak }) :=
  C6_collision_termination (alwaysModel modelAA) modelAA baseState 10 10
    (fun _ => rfl) rfl rfl (by decide) (by decide) (by decide) (by decide)

/-! ### C7 — oversize rejection -/

/-- Claim C7, confirmed: with `max_params = 100` and a factory producing
a 1000-parameter model on every attempt (fresh identity, no collision),
`new_instance` returns null after `max_fail_streak` oversized rejections,
and the rejected Instances leave the instance mapping and
`current_instance_idx` unchanged — only `num_over_sized_models` and the
per-attempt `num_generated_models` move. -/
theorem C7_oversize_rejection (model_fn : Nat → FactoryResult) (m : Model)
    (s : TState) (fuel : Nat)
    (hm : ∀ n, model_fn n = .model m)
    (hcap : s.max_params = 100)
    (hnp : m.numParams = 1000)
    (hprev : compute_model_id m ∉ s.previous_instances)
    (hcoll : (s.instances.lookup (.strKey (compute_model_id m))).isSome = false)
    (hpos : 0 < s.max_fail_streak)
    (hfuel : s.max_fail_streak ≤ fuel) :
    new_instance model_fn fuel s =
      some (none,
        { s with
          num_over_sized_models := s.num_over_sized_models + s.max_fail_streak,
          num_generated_models := s.num_generated_models + s.max_fail_streak }) ∧
    ({ s with
        num_over_sized_models := s.num_over_sized_models + s.max_fail_streak,
        num_generated_models := s.num_generated_models + s.max_fail_streak } : TState).instances =
      s.instances ∧
    ({ s with
        num_over_sized_models := s.num_over_sized_models + s.max_fail_streak,
        num_generated_models := s.num_generated_models + s.max_fail_streak } : TState).current_instance_idx =
      s.current_instance_idx := by
  have h := oversizedExhaust model_fn m hm fuel s 0 0 0 0 hprev hcoll
    (by omega) hpos hfuel
  exact ⟨h, rfl, rfl⟩

/-- Witness for `C7_oversize_rejection` with the 1000-parameter model and
the 100-parameter ceiling. -/
theorem C7_oversize_rejection_witness :
    new_instance (alwaysModel modelBig) 10 stateSmallCap =
      some (none,
        { stateSmallCap with
          num_over_sized_models := stateSmallCap.num_over_sized_models + stateSmallCap.max_fail_streak,
          num_generated_models := stateSmallCap.num_generated_models + stateSmallCap.max_fail_streak }) ∧
    stateSmallCap.max_params = 100 ∧ modelBig.numParams = 1000 :=
  ⟨(C7_oversize_rejection (alwaysModel modelBig) modelBig stateSmallCap 10
      (fun _ => rfl) rfl rfl (by decide) rfl (by decide) (by decide)).1,
   rfl, rfl⟩

/-! ### C8 — previously-trained skip is uncounted -/

/-- Claim C8, confirmed: when the built model's identity is in the
previous-instance index, that loop iteration changes only
`num_mdl_previously_trained` (besides the unconditional per-attempt
`num_generated_models` increment) and retries: `num_collisions`,
`num_invalid_models`, `num_over_sized_models`, the collision and
oversized streaks, the instance mapping and all other state are passed
to the next iteration unchanged, so the streak policy puts no bound on
such skips. -/
theorem C8_previous_skip_frame (model_fn : Nat → FactoryResult) (m : Model)
    (fuel attempt fs cs os : Nat) (s : TState)
    (hm : model_fn attempt = .model m)
    (hmem : compute_model_id m ∈ s.previous_instances) :
    newInstanceLoop model_fn (fuel + 1) attempt s fs cs os =
      newInstanceLoop model_fn fuel (attempt + 1)
        { s with
          num_generated_models := s.num_generated_models + 1,
          num_mdl_previously_trained := s.num_mdl_previously_trained + 1 }
        (fs + 1) cs os := by
  rw [newInstanceLoop.eq_2, hm]
  dsimp only
  rw [if_pos hmem]

/-- Witness for `C8_previous_skip_frame` with `modelPrev` listed in the
previous-instance index. -/
theorem C8_previous_skip_frame_witness :
    alwaysModel modelPrev 0 = .model modelPrev ∧
    compute_model_id modelPrev ∈ statePrev.previous_instances ∧
    newInstanceLoop (alwaysModel modelPrev) (9 + 1) 0 statePrev 0 0 0 =
      newInstanceLoop (alwaysModel modelPrev) 9 (0 + 1)
        { statePrev with
          num_generated_models := statePrev.num_generated_models + 1,
          num_mdl_previously_trained := statePrev.num_mdl_previously_trained + 1 }
        (0 + 1) 0 0 :=
  ⟨rfl, by decide,
    C8_previous_skip_frame (alwaysModel modelPrev) modelPrev 9 0 0 0 0 statePrev rfl (by decide)⟩

end KerasTuner
